import Mathlib

/-! Verification of the Fyyur venue/artist/show listing application
(`app.py`).  The database tables and the route handlers the claims touch
are embedded as Lean functions over explicit list-of-rows states; the
theorems below settle the spec's testable properties against them. -/

namespace Fyyur

/-- A row of the `venues` table (class `Venue` in `app.py`): every column
there is declared `nullable=False`, so a stored row holds plain values. -/
structure Venue where
  id : Nat
  name : String
  genres : List String
  address : String
  city : String
  state : String
  phone : String
  website : String
  seeking_talent : Bool
  seeking_description : String
  image_link : String
  facebook_link : String
  deriving DecidableEq, Repr

/-- ASCII case folding of a character list, the comparison ILIKE applies. -/
def lowerL (l : List Char) : List Char := l.map Char.toLower

/-- Whether `f` accepts some suffix of the string: how a `%` wildcard
consumes any (possibly empty) run of characters before the rest of the
pattern (`f`) takes over. -/
def pctScan (f : List Char → Bool) : List Char → Bool
  | [] => f []
  | c :: s => f (c :: s) || pctScan f s

/-- SQL `LIKE`/`ILIKE` pattern matching over character lists: `%` matches
any (possibly empty) run, `_` matches exactly one character, and any other
pattern character matches itself case-insensitively (the `I` of `ILIKE`). -/
def likeMatch : List Char → List Char → Bool
  | [], s => s.isEmpty
  | p :: ps, s =>
    if p = '%' then pctScan (likeMatch ps) s
    else
      match s with
      | [] => false
      | c :: s' =>
        if p = '_' then likeMatch ps s'
        else (p.toLower == c.toLower) && likeMatch ps s'

/-- Case-insensitive substring containment: the spec's description of what
venue search returns ("a single case-insensitive substring filter"). -/
def containsCI (t s : List Char) : Bool := decide (lowerL t <:+: lowerL s)

/-- How Python renders a form field read with `request.form.get`: the value
when the field was submitted, the string "None" when it interpolates the
absent field's `None` into an f-string. -/
def formGetStr (o : Option String) : String :=
  match o with
  | some s => s
  | none => "None"

/-- The ILIKE pattern `search_venues` builds: `f"%{search_term}%"`. -/
def searchPattern (term : Option String) : List Char :=
  '%' :: (formGetStr term).data ++ ['%']

/-- `POST /venues/search` (`search_venues` in `app.py`): all venues whose
name matches `ILIKE '%' || search_term || '%'`; the rendered response
reports `count = len(results)` and one entry per result. -/
def search_venues (term : Option String) (db : List Venue) : List Venue :=
  db.filter (fun v => likeMatch (searchPattern term) v.name.data)

/-- The fields a venue form submission may carry.  `request.form.get`
yields `none` for an absent field; `request.form.getlist("genres")` yields
`[]` when no genres box is checked; the `seeking_talent` checkbox arrives
as an optional string value. -/
structure VenueForm where
  name : Option String
  genres : List String
  address : Option String
  city : Option String
  state : Option String
  phone : Option String
  website_link : Option String
  seeking_talent : Option String
  seeking_description : Option String
  image_link : Option String
  facebook_link : Option String
  deriving DecidableEq, Repr

/-- Python truthiness of `request.form.get(...)` as the handlers use it in
`True if request.form.get("seeking_talent") else False`: `None` and the
empty string are falsy, every other string truthy. -/
def truthy (o : Option String) : Bool :=
  match o with
  | some s => !(s == "")
  | none => false

/-- The first venue column (in the order the handlers assign them) whose
form field is absent, hence would be written as SQL NULL into a column the
model declares NOT NULL; `none` when every such field was submitted.
`genres` always yields a (possibly empty) array and `seeking_talent` a
boolean, so neither can be NULL. -/
def firstMissingField (f : VenueForm) : Option String :=
  if f.name.isNone then some "name"
  else if f.address.isNone then some "address"
  else if f.city.isNone then some "city"
  else if f.state.isNone then some "state"
  else if f.phone.isNone then some "phone"
  else if f.website_link.isNone then some "website"
  else if f.seeking_description.isNone then some "seeking_description"
  else if f.image_link.isNone then some "image_link"
  else if f.facebook_link.isNone then some "facebook_link"
  else none

/-- Whether a venue form populates every NOT NULL column. -/
def venueFormComplete (f : VenueForm) : Bool := (firstMissingField f).isNone

/-- The text of the NOT NULL violation the database raises when column
`col` is written as NULL (the `e` interpolated into the failure flash). -/
def notNullText (col : String) : String :=
  "null value in column \x22" ++ col ++ "\x22 violates not-null constraint"

/-- The raw text of werkzeug's NotFound exception, raised by
`Venue.query.get_or_404` and caught by the handlers' blanket
`except Exception`. -/
def notFoundText : String :=
  "404 Not Found: The requested URL was not found on the server. " ++
  "If you entered the URL manually please check your spelling and try again."

/-- The id the database assigns to a freshly inserted venue row (a serial
primary key: past the largest id in use). -/
def freshVenueId (db : List Venue) : Nat := (db.map Venue.id).foldr max 0 + 1

/-- The venue row the create and edit handlers build: every column is
assigned from the form (`website` from the `website_link` field,
`seeking_talent` by Python truthiness, `genres` from `getlist`).  The
`getD ""` defaults are never reached on the commit paths, where
`firstMissingField` guarantees every optional field is `some`. -/
def venueOfForm (id : Nat) (f : VenueForm) : Venue :=
  { id := id
    name := f.name.getD ""
    genres := f.genres
    address := f.address.getD ""
    city := f.city.getD ""
    state := f.state.getD ""
    phone := f.phone.getD ""
    website := f.website_link.getD ""
    seeking_talent := truthy f.seeking_talent
    seeking_description := f.seeking_description.getD ""
    image_link := f.image_link.getD ""
    facebook_link := f.facebook_link.getD "" }

/-- What a handler leaves behind: the venues table, the flash message it
emitted, and the HTTP status of its response. -/
structure HandlerResult where
  db : List Venue
  flash : String
  status : Nat
  deriving DecidableEq, Repr

/-- `POST /venues/create` (`create_venue_submission`): build a `Venue` from
the form and commit.  A NOT NULL violation raises, the handler rolls back
(database unchanged) and flashes the failure message with the raw exception
text; otherwise the row is inserted and the success message flashed.  Both
paths render the home page (status 200). -/
def create_venue_submission (f : VenueForm) (db : List Venue) : HandlerResult :=
  match firstMissingField f with
  | some col =>
    { db := db
      flash := "Venue " ++ formGetStr f.name ++ " was unsuccessfully listed! because "
        ++ notNullText col
      status := 200 }
  | none =>
    { db := db ++ [venueOfForm (freshVenueId db) f]
      flash := "Venue " ++ f.name.getD "" ++ " was successfully listed!"
      status := 200 }

/-- `POST|DELETE /venues/<venue_id>` (`delete_venue`): `get_or_404` runs
inside the `try`, so on a missing id its NotFound exception is caught by
`except Exception`, the session rolls back and the failure flash embeds the
exception text (the request carries no form, so `request.form.get('name')`
is `None`).  On a found id the row is deleted and the success flash names
the venue.  Either way the handler returns the home page with status 204. -/
def delete_venue (venue_id : Nat) (db : List Venue) : HandlerResult :=
  match db.find? (fun v => v.id == venue_id) with
  | none =>
    { db := db
      flash := "Venue None was unsuccessfully deleted! because " ++ notFoundText
      status := 204 }
  | some v =>
    { db := db.eraseP (fun w => w.id == venue_id)
      flash := "Venue " ++ v.name ++ " was successfully deleted!"
      status := 204 }

/-- `POST /venues/<venue_id>/edit` (`edit_venue_submission`): on a found id
the handler assigns every column of the row from the form (exactly the
assignments of `venueOfForm`) and commits; a NOT NULL violation rolls back
and flashes the failure; a missing id raises NotFound inside the `try`,
likewise caught.  All paths redirect to the venue page (status 302). -/
def edit_venue_submission (venue_id : Nat) (f : VenueForm) (db : List Venue) :
    HandlerResult :=
  match db.find? (fun v => v.id == venue_id) with
  | none =>
    { db := db
      flash := "Venue " ++ formGetStr f.name ++ " was unsuccessfully edited! because "
        ++ notFoundText
      status := 302 }
  | some _ =>
    match firstMissingField f with
    | some col =>
      { db := db
        flash := "Venue " ++ formGetStr f.name ++ " was unsuccessfully edited! because "
          ++ notNullText col
        status := 302 }
    | none =>
      { db := db.map (fun w => if w.id == venue_id then venueOfForm w.id f else w)
        flash := "Venue " ++ f.name.getD "" ++ " was successfully edited!"
        status := 302 }

/-- `GET /venues/<venue_id>` (`show_venue`): `get_or_404` outside any
`try`, so a missing id yields the 404 page and a found one renders the
venue detail (status 200). -/
def show_venue_status (venue_id : Nat) (db : List Venue) : Nat :=
  match db.find? (fun v => v.id == venue_id) with
  | some _ => 200
  | none => 404

/-- The ids of the three hard-coded artist fixtures (`data1`, `data2`,
`data3` in `show_artist`). -/
def artistFixtureIds : List Nat := [4, 5, 6]

/-- `GET /artists/<artist_id>` (`show_artist`): the handler never queries
the database; it filters the three fixture records by id and takes element
`[0]` of the result.  On any other id the filter is empty and the `[0]`
indexing raises an unhandled IndexError. -/
def show_artist_page (artist_id : Nat) : Option Nat :=
  (artistFixtureIds.filter (fun d => d == artist_id)).head?

/-- The HTTP status `GET /artists/<artist_id>` produces: 200 for a fixture
id, else the unhandled IndexError reaches the framework's 500 handler. -/
def show_artist_status (artist_id : Nat) : Nat :=
  match show_artist_page artist_id with
  | some _ => 200
  | none => 500

/-- The (city, state) pair `venues` groups by. -/
def venueKey (v : Venue) : String × String := (v.city, v.state)

/-- `Venue.query.distinct(Venue.city, Venue.state)`: SELECT DISTINCT ON
(city, state) — one representative row per distinct pair, in order of
first appearance. -/
def distinctOnAux (seen : List (String × String)) : List Venue → List Venue
  | [] => []
  | v :: rest =>
    if venueKey v ∈ seen then distinctOnAux seen rest
    else v :: distinctOnAux (venueKey v :: seen) rest

/-- The representative rows of the distinct (city, state) query. -/
def distinctOn (db : List Venue) : List Venue := distinctOnAux [] db

/-- `GET /venues` (`venues` in `app.py`): one area per row of the distinct
query, holding its (city, state) and the venues re-queried by
`filter(Venue.state == ...).filter(Venue.city == ...)`. -/
def venues (db : List Venue) : List ((String × String) × List Venue) :=
  (distinctOn db).map
    (fun v => (venueKey v, db.filter (fun w => w.state == v.state && w.city == v.city)))

/-- A row of the `artists` table (class `Artist` in `app.py`): columns
without `nullable=False` are optional. -/
structure Artist where
  id : Nat
  name : Option String
  genres : List String
  city : Option String
  state : Option String
  phone : Option String
  website : String
  image_link : Option String
  facebook_link : String
  seeking_venue : Bool
  seeking_description : String
  deriving DecidableEq, Repr

/-- A row offered to the `shows` table (class `Show` in `app.py`) before
its constraints are checked: the table declares `id`, `name`, `date`,
`artist_id` and `venue_id`, the last four `nullable=False` and the two ids
foreign keys. -/
structure ShowRow where
  id : Nat
  name : Option String
  date : Option String
  artist_id : Option Nat
  venue_id : Option Nat
  deriving DecidableEq, Repr

/-- The checks the schema enforces when a shows row is inserted: NOT NULL
on `name`, `date`, `artist_id`, `venue_id`, and the foreign keys must
reference existing artist and venue ids. -/
def showInsertOk (s : ShowRow) (artistIds venueIds : List Nat) : Bool :=
  s.name.isSome && s.date.isSome &&
    (match s.artist_id with
     | some a => artistIds.contains a
     | none => false) &&
    (match s.venue_id with
     | some v => venueIds.contains v
     | none => false)

/-- Inserting into the `shows` table: the row is appended when the schema
checks pass, otherwise the insert raises and the table is unchanged. -/
def insertShow (s : ShowRow) (shows : List ShowRow) (artistIds venueIds : List Nat) :
    Option (List ShowRow) :=
  if showInsertOk s artistIds venueIds then some (shows ++ [s]) else none

/-- `POST /artists/create` (`create_artist_submission`): the body is all
TODO comments — it reads `request.form["name"]`, inserts nothing, and
flashes success unconditionally. -/
def create_artist_submission (name : String) (dbArtists : List Artist) :
    List Artist × String :=
  (dbArtists, "Artist " ++ name ++ " was successfully listed!")

/-- `POST /shows/create` (`create_show_submission`): likewise all TODO —
no insert, one unconditional success flash. -/
def create_show_submission (dbShows : List ShowRow) : List ShowRow × String :=
  (dbShows, "Show was successfully listed!")

/-- A search term is plain when it holds neither LIKE wildcard, so the
ILIKE pattern `%term%` tests literal (case-insensitive) containment. -/
def plainTerm (t : List Char) : Bool := t.all (fun c => !(c == '%') && !(c == '_'))

/-- Sample venue "The Musical Hop" (the spec's search example). -/
def theMusicalHop : Venue :=
  { id := 1
    name := "The Musical Hop"
    genres := ["Jazz", "Reggae", "Swing", "Classical", "Folk"]
    address := "1015 Folsom Street"
    city := "San Francisco"
    state := "CA"
    phone := "123-123-1234"
    website := "https://www.themusicalhop.com"
    seeking_talent := true
    seeking_description := "We are on the lookout for a local artist."
    image_link := "https://images.unsplash.com/a"
    facebook_link := "https://www.facebook.com/TheMusicalHop" }

/-- Sample venue "Park Square Live Music & Coffee" (the spec's second
search example). -/
def parkSquare : Venue :=
  { id := 3
    name := "Park Square Live Music & Coffee"
    genres := ["Rock n Roll", "Jazz", "Classical", "Folk"]
    address := "34 Whiskey Moore Ave"
    city := "San Francisco"
    state := "CA"
    phone := "415-000-1234"
    website := "https://www.parksquarelivemusicandcoffee.com"
    seeking_talent := false
    seeking_description := ""
    image_link := "https://images.unsplash.com/b"
    facebook_link := "https://www.facebook.com/ParkSquareLiveMusicAndCoffee" }

/-- A venue whose name holds an X where a wildcard search term holds `%`. -/
def aXbVenue : Venue :=
  { id := 7
    name := "AXB"
    genres := ["Jazz"]
    address := "1 Main St"
    city := "New York"
    state := "NY"
    phone := "555-000-0000"
    website := "https://axb.example"
    seeking_talent := false
    seeking_description := ""
    image_link := "https://images.unsplash.com/c"
    facebook_link := "https://www.facebook.com/axb" }

/-- A complete venue form: every NOT NULL column's field is submitted. -/
def sampleForm : VenueForm :=
  { name := some "The Musical Hop"
    genres := ["Jazz", "Reggae"]
    address := some "1015 Folsom Street"
    city := some "San Francisco"
    state := some "CA"
    phone := some "123-123-1234"
    website_link := some "https://www.themusicalhop.com"
    seeking_talent := some "y"
    seeking_description := some "We are on the lookout for a local artist."
    image_link := some "https://images.unsplash.com/a"
    facebook_link := some "https://www.facebook.com/TheMusicalHop" }

/-- `sampleForm` with its NOT NULL `name` field left out. -/
def incompleteForm : VenueForm := { sampleForm with name := none }

/-- An edit form that submits every text field of `jazzVenue` unchanged but
carries no `genres` entry (`getlist` yields `[]`) and no `seeking_talent`
checkbox. -/
def editFormNoGenres : VenueForm :=
  { name := some "The Musical Hop"
    genres := []
    address := some "1015 Folsom Street"
    city := some "San Francisco"
    state := some "CA"
    phone := some "123-123-1234"
    website_link := some "https://www.themusicalhop.com"
    seeking_talent := none
    seeking_description := some "We are on the lookout for a local artist."
    image_link := some "https://images.unsplash.com/a"
    facebook_link := some "https://www.facebook.com/TheMusicalHop" }

/-- `theMusicalHop` as stored before the edit of `editFormNoGenres`: its
genres list is nonempty and it is seeking talent. -/
def jazzVenue : Venue := theMusicalHop

/-- A shows row offered with exactly the attributes the spec's data-model
table lists — id, date and valid foreign keys — and hence no name. -/
def showNoName : ShowRow :=
  { id := 1
    name := none
    date := some "2035-04-01T20:00:00.000Z"
    artist_id := some 4
    venue_id := some 1 }

/-! ### Helper lemmas: ILIKE patterns `%term%` against substring containment -/

/-- `pctScan f` accepts exactly the strings with an accepted suffix. -/
theorem pctScan_iff (f : List Char → Bool) (s : List Char) :
    pctScan f s = true ↔ ∃ v, v <:+ s ∧ f v = true := by
  induction s with
  | nil =>
    simp only [pctScan]
    constructor
    · intro h
      exact ⟨[], List.suffix_refl _, h⟩
    · rintro ⟨v, hv, hm⟩
      rw [List.suffix_nil.mp hv] at hm
      exact hm
  | cons c s ih =>
    simp only [pctScan, Bool.or_eq_true, ih]
    constructor
    · rintro (h | ⟨v, hv, hm⟩)
      · exact ⟨c :: s, List.suffix_refl _, h⟩
      · exact ⟨v, hv.trans (List.suffix_cons c s), hm⟩
    · rintro ⟨v, hv, hm⟩
      rcases List.suffix_cons_iff.mp hv with h | h
      · subst h
        exact Or.inl hm
      · exact Or.inr ⟨v, h, hm⟩

/-- A pattern that is one `%` matches every string. -/
theorem likeMatch_pct_only (s : List Char) : likeMatch ['%'] s = true := by
  have h : likeMatch ['%'] s = pctScan (likeMatch []) s := by
    simp [likeMatch]
  rw [h, pctScan_iff]
  exact ⟨[], List.nil_suffix, rfl⟩

/-- Unpacking `plainTerm` over a cons. -/
theorem plainTerm_cons {c : Char} {t : List Char} (h : plainTerm (c :: t) = true) :
    c ≠ '%' ∧ c ≠ '_' ∧ plainTerm t = true := by
  simp only [plainTerm, List.all_cons, Bool.and_eq_true, Bool.not_eq_true',
    beq_eq_false_iff_ne, ne_eq] at h
  exact ⟨h.1.1, h.1.2, h.2⟩

/-- A leading `%` matches by matching the rest of the pattern against some
suffix. -/
theorem likeMatch_pct (ps s : List Char) :
    likeMatch ('%' :: ps) s = true ↔ ∃ v, v <:+ s ∧ likeMatch ps v = true := by
  have h : likeMatch ('%' :: ps) s = pctScan (likeMatch ps) s := by
    simp [likeMatch]
  rw [h, pctScan_iff]

/-- A wildcard-free pattern followed by `%` matches exactly the strings
with a case-insensitive copy of it as a prefix. -/
theorem likeMatch_lit_pct (t : List Char) (ht : plainTerm t = true) (s : List Char) :
    likeMatch (t ++ ['%']) s = true ↔
      ∃ u, u <+: s ∧ lowerL u = lowerL t := by
  induction t generalizing s with
  | nil =>
    constructor
    · intro _
      exact ⟨[], List.nil_prefix, rfl⟩
    · intro _
      exact likeMatch_pct_only s
  | cons c t ih =>
    obtain ⟨hc1, hc2, ht'⟩ := plainTerm_cons ht
    cases s with
    | nil =>
      have hstep : likeMatch ((c :: t) ++ ['%']) [] = false := by
        simp only [List.cons_append, likeMatch, if_neg hc1]
      rw [hstep]
      constructor
      · intro h
        exact absurd h (by simp)
      · rintro ⟨u, hu, hl⟩
        rw [List.prefix_nil.mp hu] at hl
        exact absurd hl (by simp [lowerL])
    | cons d s =>
      have hstep : likeMatch ((c :: t) ++ ['%']) (d :: s) =
          ((c.toLower == d.toLower) && likeMatch (t ++ ['%']) s) := by
        simp only [List.cons_append, likeMatch, if_neg hc1, if_neg hc2]
        rfl
      rw [hstep, Bool.and_eq_true, beq_iff_eq, ih ht']
      constructor
      · rintro ⟨hcd, u, hu, hl⟩
        refine ⟨d :: u, List.cons_prefix_cons.mpr ⟨rfl, hu⟩, ?_⟩
        simp only [lowerL, List.map_cons, List.cons.injEq]
        exact ⟨hcd.symm, hl⟩
      · rintro ⟨u, hu, hl⟩
        cases u with
        | nil => exact absurd hl (by simp [lowerL])
        | cons e u =>
          obtain ⟨he, hu2⟩ := List.cons_prefix_cons.mp hu
          subst he
          simp only [lowerL, List.map_cons, List.cons.injEq] at hl
          exact ⟨hl.1.symm, u, hu2, hl.2⟩

/-- Over a wildcard-free term, the ILIKE pattern `%term%` is exactly
case-insensitive substring containment. -/
theorem likeMatch_plain (t s : List Char) (ht : plainTerm t = true) :
    likeMatch ('%' :: (t ++ ['%'])) s = containsCI t s := by
  have h1 : likeMatch ('%' :: (t ++ ['%'])) s = true ↔ lowerL t <:+: lowerL s := by
    rw [likeMatch_pct]
    constructor
    · rintro ⟨v, hv, hm⟩
      rcases (likeMatch_lit_pct t ht v).mp hm with ⟨u, hu, hl⟩
      have hinf : u <:+: s := List.infix_iff_prefix_suffix.mpr ⟨v, hu, hv⟩
      rw [← hl]
      exact hinf.map Char.toLower
    · intro h
      rcases List.isInfix_map_iff.mp h with ⟨l, hl, he⟩
      rcases List.infix_iff_prefix_suffix.mp hl with ⟨v, huv, hvs⟩
      exact ⟨v, hvs, (likeMatch_lit_pct t ht v).mpr ⟨l, huv, he.symm⟩⟩
  by_cases hp : lowerL t <:+: lowerL s
  · rw [h1.mpr hp]
    simp [containsCI, hp]
  · have : likeMatch ('%' :: (t ++ ['%'])) s = false :=
      Bool.eq_false_iff.mpr (fun hb => hp (h1.mp hb))
    rw [this]
    simp [containsCI, hp]

/-! ### Helper lemmas: the distinct-(city, state) representative scan -/

/-- No venue the scan keeps carries a key it had already seen. -/
theorem distinctOnAux_not_mem (db : List Venue) :
    ∀ (seen : List (String × String)), ∀ v ∈ distinctOnAux seen db,
      venueKey v ∉ seen := by
  induction db with
  | nil =>
    intro seen v hv
    simp [distinctOnAux] at hv
  | cons w rest ih =>
    intro seen v hv
    by_cases hk : venueKey w ∈ seen
    · rw [distinctOnAux, if_pos hk] at hv
      exact ih seen v hv
    · rw [distinctOnAux, if_neg hk] at hv
      rcases List.mem_cons.mp hv with h | h
      · subst h
        exact hk
      · intro hmem
        exact ih (venueKey w :: seen) v h (List.mem_cons_of_mem _ hmem)

/-- The keys of the kept representatives are pairwise distinct. -/
theorem distinctOnAux_pairwise (db : List Venue) :
    ∀ (seen : List (String × String)),
      ((distinctOnAux seen db).map venueKey).Pairwise (· ≠ ·) := by
  induction db with
  | nil =>
    intro seen
    simp [distinctOnAux]
  | cons w rest ih =>
    intro seen
    by_cases hk : venueKey w ∈ seen
    · rw [distinctOnAux, if_pos hk]
      exact ih seen
    · rw [distinctOnAux, if_neg hk, List.map_cons]
      refine List.Pairwise.cons ?_ (ih _)
      intro k hkmem
      rcases List.mem_map.mp hkmem with ⟨u, hu, he⟩
      subst he
      have hnm := distinctOnAux_not_mem rest (venueKey w :: seen) u hu
      intro heq
      apply hnm
      rw [← heq]
      exact List.mem_cons_self _ _

/-- Every venue's key is either already seen or represented in the scan's
output. -/
theorem distinctOnAux_covers (db : List Venue) :
    ∀ (seen : List (String × String)), ∀ v ∈ db,
      venueKey v ∈ seen ∨
        ∃ u ∈ distinctOnAux seen db, venueKey u = venueKey v := by
  induction db with
  | nil =>
    intro seen v hv
    simp at hv
  | cons w rest ih =>
    intro seen v hv
    by_cases hk : venueKey w ∈ seen
    · rcases List.mem_cons.mp hv with h | h
      · subst h
        exact Or.inl hk
      · rcases ih seen v h with hmem | ⟨u, hu, he⟩
        · exact Or.inl hmem
        · refine Or.inr ⟨u, ?_, he⟩
          rw [distinctOnAux, if_pos hk]
          exact hu
    · rcases List.mem_cons.mp hv with h | h
      · subst h
        refine Or.inr ⟨v, ?_, rfl⟩
        rw [distinctOnAux, if_neg hk]
        exact List.mem_cons_self _ _
      · rcases ih (venueKey w :: seen) v h with hmem | ⟨u, hu, he⟩
        · rcases List.mem_cons.mp hmem with he2 | hs
          · refine Or.inr ⟨w, ?_, he2.symm⟩
            rw [distinctOnAux, if_neg hk]
            exact List.mem_cons_self _ _
          · exact Or.inl hs
        · refine Or.inr ⟨u, ?_, he⟩
          rw [distinctOnAux, if_neg hk]
          exact List.mem_cons_of_mem _ hu

/-! ### Claim theorems -/

/-- C6 (amended): for every search term free of the SQL LIKE wildcards `%`
and `_`, `POST /venues/search` returns exactly the venues whose name
contains the term as a case-insensitive substring — sound and complete,
since the result is the database filtered by that containment test. -/
theorem search_venues_plain (t : String) (db : List Venue)
    (ht : plainTerm t.data = true) :
    search_venues (some t) db =
      db.filter (fun v => containsCI t.data v.name.data) := by
  unfold search_venues
  apply List.filter_congr
  intro v _
  have hp : searchPattern (some t) = '%' :: (t.data ++ ['%']) := rfl
  rw [hp, likeMatch_plain t.data v.name.data ht]

/-- C6 witness: searching "Hop" over the two sample venues is exactly the
case-insensitive containment filter. -/
theorem search_venues_plain_witness :
    search_venues (some "Hop") [theMusicalHop, parkSquare] =
      [theMusicalHop, parkSquare].filter
        (fun v => containsCI "Hop".data v.name.data) :=
  search_venues_plain "Hop" [theMusicalHop, parkSquare] (by decide)

/-- C6 counterexample: with the search term "A%B", the venue named "AXB"
is returned although its name does not contain "A%B" case-insensitively —
`%` acts as a wildcard inside ILIKE, so search is not substring
containment for every term. -/
theorem search_venues_wildcard_cex :
    search_venues (some "A%B") [aXbVenue] = [aXbVenue] ∧
      containsCI "A%B".data "AXB".data = false := by
  constructor
  · rfl
  · decide

/-- C10: an empty submitted `search_term` builds the pattern `%%`, which
matches every venue: everything is returned and the reported count is the
table's size.  An absent `search_term` is interpolated as the string
"None", so the result is exactly the venues whose name contains "None"
case-insensitively. -/
theorem search_venues_empty_or_absent (db : List Venue) :
    (search_venues (some "") db = db ∧
        (search_venues (some "") db).length = db.length) ∧
      search_venues none db =
        db.filter (fun v => containsCI "None".data v.name.data) := by
  have hempty : search_venues (some "") db = db := by
    unfold search_venues
    apply List.filter_eq_self.mpr
    intro v _
    have hp : searchPattern (some "") = '%' :: (([] : List Char) ++ ['%']) := rfl
    rw [hp, likeMatch_plain [] v.name.data (by decide)]
    simp [containsCI, lowerL]
  refine ⟨⟨hempty, by rw [hempty]⟩, ?_⟩
  unfold search_venues
  apply List.filter_congr
  intro v _
  have hp : searchPattern none = '%' :: ("None".data ++ ['%']) := rfl
  rw [hp, likeMatch_plain "None".data v.name.data (by decide)]

/-- C5: a venue create submission that populates every NOT NULL field
commits: the database afterwards is the old table with exactly one new row
appended (no other row created, changed or removed) and the success flash
is emitted. -/
theorem create_venue_success (f : VenueForm) (db : List Venue)
    (hc : venueFormComplete f = true) :
    (create_venue_submission f db).db = db ++ [venueOfForm (freshVenueId db) f] ∧
      (create_venue_submission f db).flash =
        "Venue " ++ f.name.getD "" ++ " was successfully listed!" := by
  unfold venueFormComplete at hc
  unfold create_venue_submission
  cases h : firstMissingField f with
  | some col =>
    rw [h] at hc
    simp at hc
  | none =>
    exact ⟨rfl, rfl⟩

/-- C5 witness: submitting the complete sample form over an empty table
adds exactly its row and flashes success. -/
theorem create_venue_success_witness :
    (create_venue_submission sampleForm []).db =
        [] ++ [venueOfForm (freshVenueId []) sampleForm] ∧
      (create_venue_submission sampleForm []).flash =
        "Venue " ++ sampleForm.name.getD "" ++ " was successfully listed!" :=
  create_venue_success sampleForm [] (by decide)

/-- C4: a venue create submission missing a NOT NULL field raises during
the write; the handler rolls back — the database is unchanged — and
flashes the failure message with the raw exception text appended. -/
theorem create_venue_failure (f : VenueForm) (db : List Venue)
    (hc : venueFormComplete f = false) :
    (create_venue_submission f db).db = db ∧
      ∃ col, firstMissingField f = some col ∧
        (create_venue_submission f db).flash =
          ("Venue " ++ formGetStr f.name ++ " was unsuccessfully listed! because ")
            ++ notNullText col := by
  unfold venueFormComplete at hc
  unfold create_venue_submission
  cases h : firstMissingField f with
  | some col =>
    refine ⟨rfl, col, rfl, ?_⟩
    simp [String.append_assoc]
  | none =>
    rw [h] at hc
    simp at hc

/-- C4 witness: the sample form without its `name` field leaves the table
unchanged and flashes the NOT NULL error text. -/
theorem create_venue_failure_witness :
    (create_venue_submission incompleteForm []).db = [] ∧
      ∃ col, firstMissingField incompleteForm = some col ∧
        (create_venue_submission incompleteForm []).flash =
          ("Venue " ++ formGetStr incompleteForm.name ++
              " was unsuccessfully listed! because ")
            ++ notNullText col :=
  create_venue_failure incompleteForm [] (by decide)

/-- C1: evaluated at a nonexistent venue id, the delete route leaves the
table unchanged but answers 204, not the 404 the claim states — the
NotFound raised by `get_or_404` is swallowed by the handler's blanket
`except Exception`, which flashes a failure and falls through to the
unconditional `return ..., 204`. -/
theorem delete_venue_missing_not_404 :
    (delete_venue 1 []).db = [] ∧
      (delete_venue 1 []).status = 204 ∧
      (delete_venue 1 []).status ≠ 404 ∧
      (delete_venue 1 [theMusicalHop]).db = [] ∧
      (delete_venue 1 [theMusicalHop]).status = 204 := by
  refine ⟨rfl, rfl, by decide, ?_, rfl⟩
  decide

/-- C3: a venue detail page for a missing id answers 404, but the artist
detail handler never queries the database — for an id outside its three
fixtures the `list(filter(...))[0]` indexing raises an unhandled
IndexError, which surfaces as the 500 page, not 404. -/
theorem show_detail_missing_status :
    show_venue_status 1 [] = 404 ∧
      show_artist_status 1 = 500 ∧
      show_artist_status 1 ≠ 404 ∧
      show_artist_status 4 = 200 := by
  refine ⟨rfl, rfl, by decide, rfl⟩

/-- C2 counterexample: an edit that submits every text field of the stored
venue unchanged but no `genres` entry and no `seeking_talent` checkbox
does not leave those unsubmitted fields at their prior values: the row's
genres become `[]` (were ["Jazz", ...]) and seeking_talent becomes false
(was true). -/
theorem edit_venue_unsubmitted_cex :
    (edit_venue_submission 1 editFormNoGenres [jazzVenue]).db.map Venue.genres
        = [([] : List String)] ∧
      jazzVenue.genres ≠ ([] : List String) ∧
      (edit_venue_submission 1 editFormNoGenres [jazzVenue]).db.map
          Venue.seeking_talent = [false] ∧
      jazzVenue.seeking_talent = true := by
  refine ⟨by decide, by decide, by decide, by decide⟩

/-- C2 (amended): a venue edit overwrites every column from the form.  When
the id exists and every NOT NULL text field is submitted, the commit
succeeds: the edited row afterwards holds exactly the form's values
(`venueOfForm` — submitted values for submitted fields, `[]` for an
unsubmitted genres list, false for an unsubmitted checkbox), every other
row is untouched, and the success flash is emitted. -/
theorem edit_venue_complete (venue_id : Nat) (f : VenueForm) (db : List Venue)
    (hfound : (db.find? (fun v => v.id == venue_id)).isSome = true)
    (hc : venueFormComplete f = true) :
    (edit_venue_submission venue_id f db).db =
        db.map (fun w => if w.id == venue_id then venueOfForm w.id f else w) ∧
      (edit_venue_submission venue_id f db).flash =
        "Venue " ++ f.name.getD "" ++ " was successfully edited!" := by
  unfold venueFormComplete at hc
  unfold edit_venue_submission
  cases hf : db.find? (fun v => v.id == venue_id) with
  | none =>
    rw [hf] at hfound
    simp at hfound
  | some v =>
    cases h : firstMissingField f with
    | some col =>
      rw [h] at hc
      simp at hc
    | none =>
      exact ⟨rfl, rfl⟩

/-- C2 witness: editing the stored sample venue with the complete
no-genres form replaces its row by exactly the form's values. -/
theorem edit_venue_complete_witness :
    (edit_venue_submission 1 editFormNoGenres [jazzVenue]).db =
        [jazzVenue].map
          (fun w => if w.id == 1 then venueOfForm w.id editFormNoGenres else w) ∧
      (edit_venue_submission 1 editFormNoGenres [jazzVenue]).flash =
        "Venue " ++ editFormNoGenres.name.getD "" ++ " was successfully edited!" :=
  edit_venue_complete 1 editFormNoGenres [jazzVenue] (by decide) (by decide)

/-- C7: the venues listing has exactly one area per distinct (city, state)
pair among the stored venues — the areas' keys are pairwise distinct, every
stored venue's pair is represented — and each area lists exactly the venues
whose city and state equal its pair. -/
theorem venues_grouping (db : List Venue) :
    ((venues db).map Prod.fst).Pairwise (· ≠ ·) ∧
      (∀ v ∈ db, ∃ a ∈ venues db, a.1 = venueKey v) ∧
      (∀ a ∈ venues db,
        a.2 = db.filter (fun w => w.state == a.1.2 && w.city == a.1.1)) := by
  refine ⟨?_, ?_, ?_⟩
  · have hmap : (venues db).map Prod.fst = (distinctOn db).map venueKey := by
      unfold venues
      rw [List.map_map]
      rfl
    rw [hmap]
    exact distinctOnAux_pairwise db []
  · intro v hv
    rcases distinctOnAux_covers db [] v hv with h | ⟨u, hu, hk⟩
    · exact absurd h (List.not_mem_nil _)
    · refine ⟨(venueKey u,
        db.filter (fun w => w.state == u.state && w.city == u.city)), ?_, hk⟩
      exact List.mem_map_of_mem _ hu
  · intro a ha
    rcases List.mem_map.mp ha with ⟨u, _, he⟩
    subst he
    rfl

/-- C8 counterexample: a shows row offered with exactly the attributes the
claim lists — id, date and foreign keys referencing existing rows — cannot
be stored: the `name` column the claim omits is NOT NULL, so the insert is
refused. -/
theorem show_store_cex :
    showInsertOk showNoName [4] [1] = false ∧
      insertShow showNoName [] [4] [1] = none ∧
      showNoName.date.isSome = true ∧
      showNoName.artist_id = some 4 ∧
      showNoName.venue_id = some 1 := by
  refine ⟨by decide, by decide, by decide, by decide, by decide⟩

/-- C8 (amended): a shows row carries id, name, date, artist_id and
venue_id; it can be stored exactly when the NOT NULL columns name and date
are present and the two foreign keys reference existing artist and venue
ids. -/
theorem show_insert_characterization (s : ShowRow) (shows : List ShowRow)
    (artistIds venueIds : List Nat) :
    (insertShow s shows artistIds venueIds).isSome = true ↔
      (s.name.isSome = true ∧ s.date.isSome = true ∧
        (∃ a, s.artist_id = some a ∧ a ∈ artistIds) ∧
        (∃ v, s.venue_id = some v ∧ v ∈ venueIds)) := by
  unfold insertShow showInsertOk
  rcases s with ⟨id, name, date, aid, vid⟩
  cases name <;> cases date <;> cases aid <;> cases vid <;>
    simp [List.elem_iff]

/-- C9: the artist create and show create submissions touch no table — the
database is returned unchanged — while both flash success unconditionally. -/
theorem create_artist_show_noop (name : String) (dbArtists : List Artist)
    (dbShows : List ShowRow) :
    create_artist_submission name dbArtists =
        (dbArtists, "Artist " ++ name ++ " was successfully listed!") ∧
      create_show_submission dbShows =
        (dbShows, "Show was successfully listed!") :=
  ⟨rfl, rfl⟩

end Fyyur
